import Mathlib

/-!
Verification development for the flox environment-command layer
(`src/crates/flox/src/commands/environment.rs`) against its design spec.

The file has two parts:

* a shallow embedding of the Rust source: the `EnvironmentCommands` CLI
  surface, its bpaf-derived argument parsers, and the
  `EnvironmentCommands::handle` dispatcher;
* models of the generation store, transaction pipeline, history controller
  and sync engine.  Those components are described by the spec but their
  implementation is not part of the source tree under verification, so the
  corresponding definitions are marked `Modelled from the spec`.
-/

namespace Flox

/-- Environment references are path-like strings (the source declares
`type EnvironmentRef = PathBuf`, a type alias). -/
abbrev EnvironmentRef := String

/-- Embeds `struct EnvironmentArgs`: the `--system SYSTEM` option. -/
structure EnvironmentArgs where
  system : Option String
deriving DecidableEq, Repr

/-- Embeds `enum ImportFile`: source of an imported manifest. -/
inductive ImportFile where
  | Stdin : ImportFile
  | Path : String → ImportFile
deriving DecidableEq, Repr

/-- Embeds `enum ListOutput`: output selector of the `list` command. -/
inductive ListOutput where
  | OutPath : ListOutput
  | Json : ListOutput
deriving DecidableEq, Repr

/-- Embeds `enum PullFloxmainOrEnv`: target selector of `pull`.  In the
source the `Main` variant is a bare `--main`/`-m` flag carrying no fields,
while the `Env` variant carries the optional `-e ENV` argument and the
`--no-render` switch. -/
inductive PullFloxmainOrEnv where
  | Main : PullFloxmainOrEnv
  | Env : Option EnvironmentRef → Bool → PullFloxmainOrEnv
deriving DecidableEq, Repr

/-- Embeds `enum PushFloxmainOrEnv`: target selector of `push`. -/
inductive PushFloxmainOrEnv where
  | Main : PushFloxmainOrEnv
  | Env : Option EnvironmentRef → PushFloxmainOrEnv
deriving DecidableEq, Repr

/-- Embeds `enum EnvironmentCommands`.  Each constructor mirrors one bpaf
command variant of the source, with the same fields in the same order
(Rust `Vec` becomes `List`, `Option` stays `Option`, `u32` becomes `Nat`,
`FloxPackage` package specifiers become `String`). -/
inductive EnvironmentCommands where
  | Activate : EnvironmentArgs → List EnvironmentRef →
      Option (String × List String) → EnvironmentCommands
  | Create : EnvironmentArgs → Option EnvironmentRef → EnvironmentCommands
  | Destroy : Bool → Bool → EnvironmentArgs → Option EnvironmentRef →
      EnvironmentCommands
  | Edit : EnvironmentArgs → Option EnvironmentRef → EnvironmentCommands
  | Export : EnvironmentArgs → Option EnvironmentRef → EnvironmentCommands
  | Generations : EnvironmentArgs → Option EnvironmentRef → EnvironmentCommands
  | Git : EnvironmentArgs → Option EnvironmentRef → List String →
      EnvironmentCommands
  | History : Bool → EnvironmentArgs → Option EnvironmentRef →
      EnvironmentCommands
  | Import : EnvironmentArgs → Option EnvironmentRef → ImportFile →
      EnvironmentCommands
  | Install : EnvironmentArgs → Option EnvironmentRef → List String →
      EnvironmentCommands
  | List : EnvironmentArgs → Option EnvironmentRef → Option ListOutput →
      Option Nat → EnvironmentCommands
  | Push : EnvironmentArgs → Option PushFloxmainOrEnv → Bool →
      EnvironmentCommands
  | Pull : EnvironmentArgs → Option PullFloxmainOrEnv → Bool →
      EnvironmentCommands
  | Remove : EnvironmentArgs → Option EnvironmentRef → List String →
      EnvironmentCommands
  | Rollback : EnvironmentArgs → Option EnvironmentRef → Option Nat →
      EnvironmentCommands
  | SwitchGeneration : EnvironmentArgs → Option EnvironmentRef → Nat →
      EnvironmentCommands
  | Upgrade : EnvironmentArgs → Option EnvironmentRef → List String →
      EnvironmentCommands
  | WipeHistory : EnvironmentArgs → Option EnvironmentRef →
      EnvironmentCommands
deriving DecidableEq, Repr

/-- Name under which each variant is exposed as a CLI command; commands are
named after the variant (lowercased) unless the source overrides the name,
as it does for `switch-generation` and `wipe-history`. -/
def commandName : EnvironmentCommands → String
  | .Activate _ _ _ => "activate"
  | .Create _ _ => "create"
  | .Destroy _ _ _ _ => "destroy"
  | .Edit _ _ => "edit"
  | .Export _ _ => "export"
  | .Generations _ _ => "generations"
  | .Git _ _ _ => "git"
  | .History _ _ _ => "history"
  | .Import _ _ _ => "import"
  | .Install _ _ _ => "install"
  | .List _ _ _ _ => "list"
  | .Push _ _ _ => "push"
  | .Pull _ _ _ => "pull"
  | .Remove _ _ _ => "remove"
  | .Rollback _ _ _ => "rollback"
  | .SwitchGeneration _ _ _ => "switch-generation"
  | .Upgrade _ _ _ => "upgrade"
  | .WipeHistory _ _ => "wipe-history"

/-- The command names the CLI grammar of spec section 6 lists. -/
def sectionSixCommands : List String :=
  ["create", "destroy", "edit", "export", "import", "install", "remove",
   "upgrade", "list", "history", "generations", "rollback",
   "switch-generation", "wipe-history", "push", "pull", "activate", "git"]

/-- Environment references a parsed command value carries via `-e ENV`
(for `push` and `pull`, via the `env` variant of their target selector). -/
def envRefs : EnvironmentCommands → List EnvironmentRef
  | .Activate _ es _ => es
  | .Create _ e => e.toList
  | .Destroy _ _ _ e => e.toList
  | .Edit _ e => e.toList
  | .Export _ e => e.toList
  | .Generations _ e => e.toList
  | .Git _ e _ => e.toList
  | .History _ _ e => e.toList
  | .Import _ e _ => e.toList
  | .Install _ e _ => e.toList
  | .List _ e _ _ => e.toList
  | .Push _ t _ =>
    match t with
    | some (.Env (some e)) => [e]
    | _ => []
  | .Pull _ t _ =>
    match t with
    | some (.Env (some e) _) => [e]
    | _ => []
  | .Remove _ e _ => e.toList
  | .Rollback _ e _ => e.toList
  | .SwitchGeneration _ e _ => e.toList
  | .Upgrade _ e _ => e.toList
  | .WipeHistory _ e => e.toList

/-- Recognizes the `Activate` constructor. -/
def isActivate : EnvironmentCommands → Bool
  | .Activate _ _ _ => true
  | _ => false

/-- Recognizes the `Install` constructor. -/
def isInstall : EnvironmentCommands → Bool
  | .Install _ _ _ => true
  | _ => false

/-- Embeds the `PACKAGES` parser of `install` and `remove`: a positional
list wrapped in bpaf `some`, which fails unless at least one package
specifier is present (source message: "At least one package"). -/
def parsePackagesSome (tokens : List String) : Option (List String) :=
  match tokens with
  | [] => none
  | ts => some ts

/-- Embeds the `PACKAGES` parser of `upgrade`: a bare positional list
(bpaf `many`), which also succeeds on the empty list. -/
def parsePackagesMany (tokens : List String) : Option (List String) :=
  some tokens

/-- Embeds `ImportFile::parse` together with its `fallback(ImportFile::Stdin)`
use site: an absent argument defaults to standard input, the single-character
token `-` (the guarded `any` branch) selects standard input, and any other
token is taken as a file path by the positional `PATH` branch. -/
def importFileParse (arg : Option String) : ImportFile :=
  match arg with
  | none => .Stdin
  | some a => if a = "-" then .Stdin else .Path a

/-- Embeds `activate_run_args`: the `COMMAND` positional is built with
bpaf `strict`, so it only matches tokens appearing after the `--` separator;
the remaining tokens after it are collected by `any(ARGUMENTS).many()`, and
the whole product is `optional`.  The first argument lists leftover
positional tokens before any `--` separator (the `Activate` command has no
other positional, so such a token makes the parse fail); the second is
`some ts` when a `--` separator is present followed by the tokens `ts`, and
`none` when there is no separator. -/
def activate_run_args (before : List String) (after : Option (List String)) :
    Option (Option (String × List String)) :=
  match before with
  | _ :: _ => none
  | [] =>
    match after with
    | none => some none
    | some [] => some none
    | some (c :: rest) => some (some (c, rest))

/-- Embeds the bpaf-derived parser for `Option<PullFloxmainOrEnv>` at the
level of the options it can consume: `mainFlag` records whether `--main`
(or `-m`) was given, `envArg` the value of `--environment ENV` (or `-e`)
if given, `noRender` whether `--no-render` was given.  The derived
alternative tries the `Main` branch first; it consumes only the `--main`
flag, so any other option of the selector is left over and the parse of
the `pull` command fails.   Without `--main`, the `Env` branch succeeds,
collecting the optional environment argument and the `no-render` switch. -/
def parsePullTarget (mainFlag : Bool) (envArg : Option EnvironmentRef)
    (noRender : Bool) : Option PullFloxmainOrEnv :=
  if mainFlag then
    if envArg = none ∧ noRender = false then some .Main else none
  else
    some (.Env envArg noRender)

/-- Outcome of `EnvironmentCommands::handle`.  `forwarded` models the
`flox_forward` call, `completed` the `Ok(())` return, `failed` an error
returned through `?`, and the two panic constructors model reaching
`todo!()` and `Option::unwrap` on `None` respectively. -/
inductive HandleOutcome where
  | forwarded : HandleOutcome
  | completed : HandleOutcome
  | failed : String → HandleOutcome
  | panicTodo : HandleOutcome
  | panicUnwrapNone : HandleOutcome
deriving DecidableEq, Repr

/-- Embeds `EnvironmentCommands::handle`.  `isForwarded` stands for
`Feature::Env.is_forwarded()?` (an error propagates), `installAction` for
the SDK call chain `flox.environment(env)?.install(packages)?`.  The match
mirrors the source: a guard arm forwarding every command when the feature
is forwarded, an `Install` arm that unwraps the optional environment
reference, and a catch-all `todo!()` arm. -/
def handle (isForwarded : Except String Bool)
    (installAction : EnvironmentRef → List String → Except String Unit)
    (cmd : EnvironmentCommands) : HandleOutcome :=
  match isForwarded with
  | .error e => .failed e
  | .ok true => .forwarded
  | .ok false =>
    match cmd with
    | .Install _ environment packages =>
      match environment with
      | none => .panicUnwrapNone
      | some env =>
        match installAction env packages with
        | .ok _ => .completed
        | .error e => .failed e
    | _ => .panicTodo

/-- Modelled from the spec: a manifest is the declarative description of the
desired packages (section 3); the generation store, transaction pipeline,
history controller and sync engine the spec describes are not implemented
in the source tree under verification, so this data model follows the
words of sections 3 and 4.  A manifest is kept as its ordered list of
package specifiers. -/
abbrev Manifest := List String

/-- Modelled from the spec: a lock file is the resolver-pinned counterpart
of a manifest, kept abstract as a list of pinned package entries. -/
abbrev Lock := List String

/-- Modelled from the spec: a generation is an immutable record of a
manifest, its lock, and the index of its parent generation (section 3).
Generation indices are monotonic and gapless starting at 0, so the index
is the position in the environment chain and is not duplicated as a field;
the `created_at` and `created_by` metadata play no part in any verified
property and are elided. -/
structure Generation where
  manifest : Manifest
  lock : Lock
  parent : Option Nat
deriving DecidableEq, Repr

/-- Modelled from the spec: the per-environment state of the generation
store — the ordered chain of generations (position = index) and the
current pointer (section 3: none for a freshly created environment). -/
structure EnvState where
  generations : List Generation
  current : Option Nat
deriving DecidableEq, Repr

/-- Modelled from the spec: whether generation `i` exists in the chain. -/
def generationExists (s : EnvState) (i : Nat) : Bool :=
  i < s.generations.length

/-- Modelled from the spec: the manifest of the current generation, empty
for a freshly created environment with no generation yet. -/
def currentManifest (s : EnvState) : Manifest :=
  match s.current with
  | none => []
  | some i =>
    match s.generations.get? i with
    | none => []
    | some g => g.manifest

/-- Modelled from the spec: the lock of the current generation. -/
def currentLock (s : EnvState) : Lock :=
  match s.current with
  | none => []
  | some i =>
    match s.generations.get? i with
    | none => []
    | some g => g.lock

/-- Modelled from the spec: `create_generation` appends a new generation as
a child of the current one and points the current pointer at it
(sections 3 and 4.1). -/
def commitGeneration (s : EnvState) (m : Manifest) (l : Lock) : EnvState :=
  ⟨s.generations ++ [⟨m, l, s.current⟩], some s.generations.length⟩

/-- Modelled from the spec: the manifest mutations the transaction pipeline
accepts (section 4.2): install adds package specs, remove deletes them,
upgrade re-resolves without changing the declared set, edit and import
replace the manifest text wholesale. -/
inductive Mutation where
  | install : List String → Mutation
  | remove : List String → Mutation
  | upgrade : List String → Mutation
  | edit : Manifest → Mutation
  | importManifest : Manifest → Mutation
deriving DecidableEq, Repr

/-- Modelled from the spec: applying a mutation to the current manifest. -/
def applyMutation : Mutation → Manifest → Manifest
  | .install pkgs, m => m ++ pkgs
  | .remove pkgs, m => m.filter (fun p => decide (p ∉ pkgs))
  | .upgrade _, m => m
  | .edit newManifest, _ => newManifest
  | .importManifest newManifest, _ => newManifest

/-- Modelled from the spec: upgrade with an empty package list re-resolves
every package of the current manifest, while upgrade with specific
packages re-resolves only those, holding the others pinned (section 4.2). -/
def upgradeTargets (currentPkgs : List String) (pkgs : List String) :
    List String :=
  if pkgs.isEmpty then currentPkgs else pkgs

/-- Modelled from the spec: the error taxonomy of section 7 relevant to the
claims under verification. -/
inductive StoreError where
  | ExternalToolFailure : StoreError
  | NoPreviousGeneration : StoreError
  | UnknownGeneration : StoreError
  | DivergedHistory : StoreError
deriving DecidableEq, Repr

/-- Modelled from the spec: one transaction of the pipeline (section 4.2) —
read the current manifest, apply the mutation, invoke the external
resolver; on success atomically commit the next generation, on resolver
failure create no generation and leave the environment state untouched.
Returns the operation result together with the persisted state after the
transaction. -/
def runTransaction (resolve : Manifest → Option Lock) (mu : Mutation)
    (s : EnvState) : Except StoreError Unit × EnvState :=
  let m := applyMutation mu (currentManifest s)
  match resolve m with
  | none => (.error .ExternalToolFailure, s)
  | some l => (.ok (), commitGeneration s m l)

/-- Modelled from the spec: `rollback(env, to?)` of the history controller
(section 4.3) — with `to` omitted the target is the current index minus
one when that generation exists (`NoPreviousGeneration` otherwise); with
`to` given the target is `to` when it exists (`UnknownGeneration`
otherwise).  On success only the current pointer moves; no generation is
ever deleted. -/
def rollback (s : EnvState) (toIdx : Option Nat) :
    Except StoreError Unit × EnvState :=
  match toIdx with
  | some t =>
    if generationExists s t then (.ok (), ⟨s.generations, some t⟩)
    else (.error .UnknownGeneration, s)
  | none =>
    match s.current with
    | none => (.error .NoPreviousGeneration, s)
    | some c =>
      if c = 0 then (.error .NoPreviousGeneration, s)
      else if generationExists s (c - 1) then
        (.ok (), ⟨s.generations, some (c - 1)⟩)
      else (.error .NoPreviousGeneration, s)

/-- Modelled from the spec: a synchronized per-environment chain is kept as
the list of generation identities it contains; local and remote have
diverged when each holds generations the other does not know about
(sections 4.4 and the glossary). -/
def chainDiverged (localChain remoteChain : List Nat) : Bool :=
  localChain.any (fun g => ¬ remoteChain.contains g) &&
    remoteChain.any (fun g => ¬ localChain.contains g)

/-- Modelled from the spec: per-environment `pull` (section 4.4): on
divergence it fails with `DivergedHistory` and leaves the local chain
untouched unless `force` is set, in which case the local chain is
unconditionally overwritten by the remote one; otherwise it fast-forwards
the local chain to whichever side already knows every generation of the
other.  Returns the result and the local chain after the operation. -/
def pullChain (force : Bool) (localChain remoteChain : List Nat) :
    Except StoreError Unit × List Nat :=
  if force then (.ok (), remoteChain)
  else if chainDiverged localChain remoteChain then
    (.error .DivergedHistory, localChain)
  else if localChain.all (fun g => remoteChain.contains g) then
    (.ok (), remoteChain)
  else (.ok (), localChain)

/-- Modelled from the spec: per-environment `push`, symmetric to pull —
the remote chain is the one overwritten by the local one under `force`.
Returns the result and the remote chain after the operation. -/
def pushChain (force : Bool) (localChain remoteChain : List Nat) :
    Except StoreError Unit × List Nat :=
  if force then (.ok (), localChain)
  else if chainDiverged localChain remoteChain then
    (.error .DivergedHistory, remoteChain)
  else if remoteChain.all (fun g => localChain.contains g) then
    (.ok (), localChain)
  else (.ok (), remoteChain)

/-- Concrete three-generation environment used to replay the rollback
scenario of spec section 8: generations [0, 1, 2], current pointer 2. -/
def demoState : EnvState :=
  ⟨[⟨["pkgA"], ["pkgA=1"], none⟩,
    ⟨["pkgA", "pkgB"], ["pkgA=1", "pkgB=1"], some 0⟩,
    ⟨["pkgA", "pkgB", "pkgC"], ["pkgA=1", "pkgB=1", "pkgC=1"], some 1⟩],
   some 2⟩

/-- Claim C1: for every transaction (install, remove, upgrade, edit,
import) on an environment, if the external resolver fails, no generation
is created and all persisted state — manifest, lock, generation count and
current pointer — is exactly as it was before the transaction began. -/
theorem transaction_resolver_failure_leaves_state
    (resolve : Manifest → Option Lock) (mu : Mutation) (s : EnvState)
    (h : resolve (applyMutation mu (currentManifest s)) = none) :
    runTransaction resolve mu s = (.error .ExternalToolFailure, s) ∧
    (runTransaction resolve mu s).2.generations.length =
      s.generations.length ∧
    (runTransaction resolve mu s).2.current = s.current ∧
    currentManifest (runTransaction resolve mu s).2 = currentManifest s ∧
    currentLock (runTransaction resolve mu s).2 = currentLock s := by
  simp [runTransaction, h]

/-- Witness for C1: a failing resolver aborts an install transaction on an
empty environment without touching its state. -/
theorem transaction_resolver_failure_leaves_state_witness :
    runTransaction (fun _ => none) (.install ["pkgA"]) ⟨[], none⟩ =
      (.error .ExternalToolFailure, (⟨[], none⟩ : EnvState)) :=
  (transaction_resolver_failure_leaves_state (fun _ => none)
    (.install ["pkgA"]) ⟨[], none⟩ rfl).1

/-- Claim C2: rollback with the target omitted sets the current pointer to
the current index minus one if that generation exists and fails with
`NoPreviousGeneration` otherwise; rollback with a target set moves the
current pointer there if that generation exists and fails with
`UnknownGeneration` otherwise; in all cases no generation is deleted. -/
theorem rollback_moves_pointer_only (s : EnvState) :
    (∀ c, s.current = some c → 0 < c → generationExists s (c - 1) = true →
      rollback s none = (.ok (), ⟨s.generations, some (c - 1)⟩)) ∧
    (∀ c, s.current = some c →
      (c = 0 ∨ generationExists s (c - 1) = false) →
      rollback s none = (.error .NoPreviousGeneration, s)) ∧
    (s.current = none →
      rollback s none = (.error .NoPreviousGeneration, s)) ∧
    (∀ t, generationExists s t = true →
      rollback s (some t) = (.ok (), ⟨s.generations, some t⟩)) ∧
    (∀ t, generationExists s t = false →
      rollback s (some t) = (.error .UnknownGeneration, s)) ∧
    (∀ o, (rollback s o).2.generations = s.generations) := by
  refine ⟨?_, ?_, ?_, ?_, ?_, ?_⟩
  · intro c hc hpos hex
    simp [rollback, hc, Nat.pos_iff_ne_zero.mp hpos, hex]
  · intro c hc hor
    rcases hor with h0 | hmiss
    · simp [rollback, hc, h0]
    · rcases Nat.eq_zero_or_pos c with h0 | hpos
      · simp [rollback, hc, h0]
      · simp [rollback, hc, Nat.pos_iff_ne_zero.mp hpos, hmiss]
  · intro hc
    simp [rollback, hc]
  · intro t ht
    simp [rollback, ht]
  · intro t ht
    simp [rollback, ht]
  · intro o
    rcases o with _ | t
    · rcases hc : s.current with _ | c
      · simp [rollback, hc]
      · by_cases h0 : c = 0
        · simp [rollback, hc, h0]
        · by_cases hex : generationExists s (c - 1)
          · simp [rollback, hc, h0, hex]
          · simp [rollback, hc, h0, hex]
    · by_cases ht : generationExists s t
      · simp [rollback, ht]
      · simp [rollback, ht]

/-- Witness for C2, replaying the scenario of spec section 8: generations
[0, 1, 2] with current = 2; rollback moves the pointer to 1, then to 0,
then fails with `NoPreviousGeneration`, deleting nothing. -/
theorem rollback_moves_pointer_only_witness :
    rollback demoState none =
      (.ok (), ⟨demoState.generations, some 1⟩) ∧
    rollback ⟨demoState.generations, some 1⟩ none =
      (.ok (), ⟨demoState.generations, some 0⟩) ∧
    rollback ⟨demoState.generations, some 0⟩ none =
      (.error .NoPreviousGeneration, ⟨demoState.generations, some 0⟩) ∧
    rollback demoState (some 7) =
      (.error .UnknownGeneration, demoState) := by
  refine ⟨?_, ?_, ?_, ?_⟩
  · exact (rollback_moves_pointer_only demoState).1 2 rfl (by decide)
      (by decide)
  · exact (rollback_moves_pointer_only
      ⟨demoState.generations, some 1⟩).1 1 rfl (by decide) (by decide)
  · exact (rollback_moves_pointer_only
      ⟨demoState.generations, some 0⟩).2.1 0 rfl (Or.inl rfl)
  · exact (rollback_moves_pointer_only demoState).2.2.2.2.1 7 (by decide)

/-- Claim C3: on diverged per-environment chains, pull without force fails
with `DivergedHistory` and leaves the local chain untouched; pull with
force overwrites the local chain with the remote one; push is symmetric,
failing without force and overwriting the remote chain with the local one
under force. -/
theorem sync_diverged_force_semantics (localChain remoteChain : List Nat)
    (h : chainDiverged localChain remoteChain = true) :
    pullChain false localChain remoteChain =
      (.error .DivergedHistory, localChain) ∧
    pullChain true localChain remoteChain = (.ok (), remoteChain) ∧
    pushChain false localChain remoteChain =
      (.error .DivergedHistory, remoteChain) ∧
    pushChain true localChain remoteChain = (.ok (), localChain) := by
  simp [pullChain, pushChain, h]

/-- Witness for C3: chains [0, 1] and [0, 2] have each a generation the
other does not know about, so they have diverged. -/
theorem sync_diverged_force_semantics_witness :
    chainDiverged [0, 1] [0, 2] = true ∧
    pullChain false [0, 1] [0, 2] = (.error .DivergedHistory, [0, 1]) ∧
    pullChain true [0, 1] [0, 2] = (.ok (), [0, 2]) ∧
    pushChain true [0, 1] [0, 2] = (.ok (), [0, 1]) :=
  ⟨by decide,
   (sync_diverged_force_semantics [0, 1] [0, 2] (by decide)).1,
   (sync_diverged_force_semantics [0, 1] [0, 2] (by decide)).2.1,
   (sync_diverged_force_semantics [0, 1] [0, 2] (by decide)).2.2.2⟩

/-- Claim C4: the install and remove package parsers require at least one
package specifier, the upgrade package parser accepts an empty list, and
the upgrade semantics treat an empty list as re-resolving the whole
current manifest while a non-empty list re-resolves exactly the listed
packages. -/
theorem install_remove_require_packages_upgrade_does_not :
    parsePackagesSome [] = none ∧
    (∀ ts : List String, ts ≠ [] → parsePackagesSome ts = some ts) ∧
    (∀ ts : List String, parsePackagesMany ts = some ts) ∧
    (∀ m : Manifest, upgradeTargets m [] = m) ∧
    (∀ (m : Manifest) (ps : List String), ps ≠ [] →
      upgradeTargets m ps = ps) := by
  refine ⟨rfl, ?_, fun ts => rfl, fun m => rfl, ?_⟩
  · intro ts hts
    cases ts with
    | nil => exact absurd rfl hts
    | cons t ts => rfl
  · intro m ps hps
    cases ps with
    | nil => exact absurd rfl hps
    | cons p ps => rfl

/-- Witness for C4: one package parses for install, and upgrading with an
explicit package re-resolves only it. -/
theorem install_remove_require_packages_upgrade_does_not_witness :
    parsePackagesSome ["hello"] = some ["hello"] ∧
    upgradeTargets ["pkgA", "pkgB"] ["pkgB"] = ["pkgB"] :=
  ⟨install_remove_require_packages_upgrade_does_not.2.1 ["hello"]
    (by simp),
   install_remove_require_packages_upgrade_does_not.2.2.2.2
    ["pkgA", "pkgB"] ["pkgB"] (by simp)⟩

/-- Claim C7: the import source argument accepts a file path or the literal
`-` for standard input and defaults to standard input when omitted; the
imported manifest replaces the current one wholesale in a normal
transaction that produces a new generation. -/
theorem import_defaults_stdin_and_replaces_manifest :
    importFileParse none = .Stdin ∧
    importFileParse (some "-") = .Stdin ∧
    (∀ p, p ≠ "-" → importFileParse (some p) = .Path p) ∧
    (∀ (resolve : Manifest → Option Lock) (m : Manifest) (s : EnvState)
      (l : Lock), resolve m = some l →
      runTransaction resolve (.importManifest m) s =
        (.ok (), commitGeneration s m l) ∧
      currentManifest (commitGeneration s m l) = m ∧
      (commitGeneration s m l).generations.length =
        s.generations.length + 1) := by
  refine ⟨rfl, by simp [importFileParse], ?_, ?_⟩
  · intro p hp
    simp [importFileParse, hp]
  · intro resolve m s l hl
    refine ⟨?_, ?_, ?_⟩
    · simp [runTransaction, applyMutation, hl]
    · simp [currentManifest, commitGeneration]
    · simp [commitGeneration]

/-- Witness for C7: a path argument parses as a file source, and importing
a one-package manifest into an empty environment creates generation 0
carrying exactly that manifest. -/
theorem import_defaults_stdin_and_replaces_manifest_witness :
    importFileParse (some "manifest.toml") = .Path "manifest.toml" ∧
    runTransaction (fun _ => some ["pkgA=1"]) (.importManifest ["pkgA"])
      ⟨[], none⟩ =
      (.ok (), commitGeneration ⟨[], none⟩ ["pkgA"] ["pkgA=1"]) :=
  ⟨import_defaults_stdin_and_replaces_manifest.2.2.1 "manifest.toml"
    (by decide),
   (import_defaults_stdin_and_replaces_manifest.2.2.2
    (fun _ => some ["pkgA=1"]) ["pkgA"] ⟨[], none⟩ ["pkgA=1"] rfl).1⟩

/-- Claim C8: an activate command with arguments must introduce them by the
`--` separator — a positional token before any separator fails the parse —
and when no command is given activate accepts no positional arguments. -/
theorem activate_command_requires_separator :
    activate_run_args [] none = some none ∧
    (∀ c rest, activate_run_args [] (some (c :: rest)) =
      some (some (c, rest))) ∧
    (∀ t ts after, activate_run_args (t :: ts) after = none) :=
  ⟨rfl, fun _ _ => rfl, fun _ _ _ => rfl⟩

/-- Claim C9: when the environment feature is not forwarded, handling any
command other than `Install` reaches the catch-all `todo!()` arm and
panics instead of performing the specified behavior or returning an
error. -/
theorem handle_non_install_panics
    (f : EnvironmentRef → List String → Except String Unit)
    (cmd : EnvironmentCommands) (h : isInstall cmd = false) :
    handle (.ok false) f cmd = .panicTodo := by
  cases cmd <;> first
    | rfl
    | exact absurd h (by simp [isInstall])

/-- Witness for C9: handling `rollback` with the feature not forwarded
panics at the `todo!()` arm. -/
theorem handle_non_install_panics_witness :
    handle (.ok false) (fun _ _ => .ok ())
      (.Rollback ⟨none⟩ none none) = .panicTodo :=
  handle_non_install_panics (fun _ _ => .ok ())
    (.Rollback ⟨none⟩ none none) rfl

/-- Claim C10: when the environment feature is not forwarded, handling an
`Install` command whose optional environment reference is absent panics on
the `unwrap` of `None` rather than selecting a default environment or
returning an error. -/
theorem handle_install_without_env_panics (ea : EnvironmentArgs)
    (pkgs : List String)
    (f : EnvironmentRef → List String → Except String Unit) :
    handle (.ok false) f (.Install ea none pkgs) = .panicUnwrapNone := rfl

/-- Counterexample to claim C5: in the source the `-e ENV` and
`--no-render` options belong to the `Env` variant of the pull target, not
to `Main`.  Concretely, giving `--main` together with `--no-render` fails
to parse, while `--no-render` alone parses as the env target carrying
`no_render = true`, and `-e proj` alone parses as the env target carrying
the reference — the opposite of the claimed grammar
`pull [main [-e ENV] [--no-render] | env]`. -/
theorem pull_target_grammar_counterexample :
    parsePullTarget true none true = none ∧
    parsePullTarget false none true = some (.Env none true) ∧
    parsePullTarget false (some "proj") false =
      some (.Env (some "proj") false) := by
  decide

/-- Claim C5 as amended: in the pull command's target selector, the `env`
target accepts the `-e ENV` and `--no-render` options, while the `main`
target takes no further options and rejects both. -/
theorem pull_target_env_carries_options :
    (∀ (envArg : Option EnvironmentRef) (noRender : Bool),
      parsePullTarget false envArg noRender =
        some (.Env envArg noRender)) ∧
    parsePullTarget true none false = some .Main ∧
    (∀ (envArg : Option EnvironmentRef) (noRender : Bool),
      envArg ≠ none ∨ noRender = true →
      parsePullTarget true envArg noRender = none) := by
  refine ⟨fun envArg noRender => rfl, rfl, ?_⟩
  intro envArg noRender h
  rcases h with h | h
  · simp [parsePullTarget, h]
  · simp [parsePullTarget, h]

/-- Witness for the amended C5: the main target rejects an explicit
environment argument. -/
theorem pull_target_env_carries_options_witness :
    parsePullTarget true (some "proj") false = none :=
  pull_target_env_carries_options.2.2 (some "proj") false
    (Or.inl (by simp))

/-- Counterexample to claim C6: the activate command does not take an
optional (at most one) environment reference — its `-e ENV` option is a
list that may repeat, so a parsed activate command can carry two
environment references. -/
theorem activate_env_ref_not_optional :
    ¬ (envRefs (.Activate ⟨none⟩ ["dev", "prod"] none)).length ≤ 1 := by
  decide

/-- Claim C6 as amended: the CLI exposes exactly the environment commands
listed in section 6 — every parsed command bears one of the listed names
and every listed name is borne by some command — and each command carries
at most one environment reference, except activate, whose `-e ENV` option
accepts a list of zero or more references. -/
theorem cli_surface_matches_section_six :
    (∀ c : EnvironmentCommands, commandName c ∈ sectionSixCommands) ∧
    (∀ n ∈ sectionSixCommands,
      ∃ c : EnvironmentCommands, commandName c = n) ∧
    (∀ c : EnvironmentCommands, isActivate c = false →
      (envRefs c).length ≤ 1) := by
  refine ⟨?_, ?_, ?_⟩
  · intro c
    cases c <;> simp [commandName, sectionSixCommands]
  · intro n hn
    fin_cases hn
    · exact ⟨.Create ⟨none⟩ none, rfl⟩
    · exact ⟨.Destroy false false ⟨none⟩ none, rfl⟩
    · exact ⟨.Edit ⟨none⟩ none, rfl⟩
    · exact ⟨.Export ⟨none⟩ none, rfl⟩
    · exact ⟨.Import ⟨none⟩ none .Stdin, rfl⟩
    · exact ⟨.Install ⟨none⟩ none [], rfl⟩
    · exact ⟨.Remove ⟨none⟩ none [], rfl⟩
    · exact ⟨.Upgrade ⟨none⟩ none [], rfl⟩
    · exact ⟨.List ⟨none⟩ none none none, rfl⟩
    · exact ⟨.History false ⟨none⟩ none, rfl⟩
    · exact ⟨.Generations ⟨none⟩ none, rfl⟩
    · exact ⟨.Rollback ⟨none⟩ none none, rfl⟩
    · exact ⟨.SwitchGeneration ⟨none⟩ none 0, rfl⟩
    · exact ⟨.WipeHistory ⟨none⟩ none, rfl⟩
    · exact ⟨.Push ⟨none⟩ none false, rfl⟩
    · exact ⟨.Pull ⟨none⟩ none false, rfl⟩
    · exact ⟨.Activate ⟨none⟩ [] none, rfl⟩
    · exact ⟨.Git ⟨none⟩ none [], rfl⟩
  · intro c hc
    cases c with
    | Activate ea es args => simp [isActivate] at hc
    | Push ea t force =>
      rcases t with _ | t
      · simp [envRefs]
      · rcases t with _ | e
        · simp [envRefs]
        · rcases e with _ | e <;> simp [envRefs]
    | Pull ea t force =>
      rcases t with _ | t
      · simp [envRefs]
      · rcases t with _ | ⟨e, nr⟩
        · simp [envRefs]
        · rcases e with _ | e <;> simp [envRefs]
    | Create ea e => rcases e with _ | e <;> simp [envRefs]
    | Destroy fo og ea e => rcases e with _ | e <;> simp [envRefs]
    | Edit ea e => rcases e with _ | e <;> simp [envRefs]
    | Export ea e => rcases e with _ | e <;> simp [envRefs]
    | Generations ea e => rcases e with _ | e <;> simp [envRefs]
    | Git ea e args => rcases e with _ | e <;> simp [envRefs]
    | History ol ea e => rcases e with _ | e <;> simp [envRefs]
    | Import ea e file => rcases e with _ | e <;> simp [envRefs]
    | Install ea e pkgs => rcases e with _ | e <;> simp [envRefs]
    | List ea e js gn => rcases e with _ | e <;> simp [envRefs]
    | Remove ea e pkgs => rcases e with _ | e <;> simp [envRefs]
    | Rollback ea e t => rcases e with _ | e <;> simp [envRefs]
    | SwitchGeneration ea e g => rcases e with _ | e <;> simp [envRefs]
    | Upgrade ea e pkgs => rcases e with _ | e <;> simp [envRefs]
    | WipeHistory ea e => rcases e with _ | e <;> simp [envRefs]

/-- Witness for the amended C6: the name `switch-generation` from the
section 6 list is borne by a command, and a destroy command carries at
most one environment reference. -/
theorem cli_surface_matches_section_six_witness :
    (∃ c : EnvironmentCommands, commandName c = "switch-generation") ∧
    (envRefs (.Destroy true true ⟨none⟩ (some "proj"))).length ≤ 1 :=
  ⟨cli_surface_matches_section_six.2.1 "switch-generation" (by simp
    [sectionSixCommands]),
   cli_surface_matches_section_six.2.2
    (.Destroy true true ⟨none⟩ (some "proj")) rfl⟩

end Flox
